import Mathlib

/-!
Verification development for the RBAC/session core of the Chronicle admin
console (`src/contexts/AuthContext.tsx`).

The development shallowly embeds:
* the data model (`Role`, `UserProfile`, `Identity`, `AuthState`);
* the capability resolver `hasPermission`;
* the session-manager operations (`getInitialSession`, the
  `onAuthStateChange` handler, `signOut`, `refreshProfile`), each as a pure
  function of the state plus the outcomes of the remote calls it awaits;
* a small-step world semantics (`World`, `World.step`) that makes the
  interleaving of overlapping auth events and in-flight profile fetches
  explicit (each handler is atomic up to its single `await` on the profile
  fetch, matching the JavaScript event loop);
* the route guards `ProtectedRoute`, `ModeratorRoute`, `EditorRoute`.

Remote collaborators (identity store, profile store) are modelled by the
values they deliver: a profile fetch is a function `String → Option
UserProfile` (the source's `fetchUserProfile` catches lookup errors and
returns `null`, so error and not-found both collapse to `none`), and the
remote sign-out call either returns a result value or throws.
-/

namespace Chronicle

/-- The role enumeration from the `UserProfile` interface:
`'user' | 'admin' | 'moderator' | 'editor'`. -/
inductive Role where
  | user
  | admin
  | moderator
  | editor
deriving DecidableEq, Repr

/-- The fields of the `UserProfile` interface that the RBAC/session core
reads.  The remaining attributes (name, bio, social links, images, login
statistics) are passed through opaquely by the source and are omitted.
`permissions` is `Record<string, any> | null` in the source; the JavaScript
check `profile.permissions[permission] === true` grants only for the
boolean value `true`, so the override values are modelled as `Bool` and the
whole mapping as an optional association list. -/
structure UserProfile where
  id : String
  role : Role
  is_active : Bool
  blocked : Bool
  permissions : Option (List (String × Bool))
deriving DecidableEq, Repr

/-- The identity record delivered by the auth service; the core reads only
the stable `user.id`. -/
structure Identity where
  id : String
deriving DecidableEq, Repr

/-- The session manager's state: the three `useState` cells of
`AuthProvider` (`user`, `profile`, `isLoading`).  The derived flag
`isAuthenticated` is `!!user && !!profile`. -/
structure AuthState where
  user : Option Identity
  profile : Option UserProfile
  isLoading : Bool
deriving DecidableEq, Repr

/-- `isAuthenticated: !!user && !!profile` from the context value. -/
def isAuthenticated (s : AuthState) : Bool :=
  s.user.isSome && s.profile.isSome

/-- `profile?.role` as read by the guards. -/
def roleOf (s : AuthState) : Option Role :=
  s.profile.map (fun p => p.role)

/-- The static `rolePermissions` table declared inside `hasPermission`.
It has entries for moderator, editor and user only; for any other role the
source's `rolePermissions[profile.role]?.includes(permission) || false`
evaluates to `false`. -/
def rolePermissions : List (Role × List String) :=
  [ (Role.moderator, ["moderate_content", "manage_comments", "view_analytics"]),
    (Role.editor,    ["create_content", "edit_content", "manage_posts"]),
    (Role.user,      ["view_content", "create_comments"]) ]

/-- `hasPermission` from `AuthContext.tsx` (lines 103-122), translated
branch for branch:
* no profile: `false`;
* `profile.role === 'admin'`: `true`;
* `if (profile.permissions)` (the mapping is non-null, even when empty):
  `profile.permissions[permission] === true`;
* otherwise the static role table with `?.includes(...) || false`. -/
def hasPermission (profile : Option UserProfile) (permission : String) : Bool :=
  match profile with
  | none => false
  | some p =>
    if p.role = Role.admin then
      true
    else
      match p.permissions with
      | some ps => ps.lookup permission == some true
      | none =>
        match rolePermissions.lookup p.role with
        | some caps => caps.contains permission
        | none => false

/-- The capability-resolution order exactly as claim C2 states it: admin
short-circuits; an existing permissions mapping that CONTAINS the name
returns the stored boolean; otherwise — including when the mapping exists
but does not contain the name — the static role table decides; no profile
gives false.  (Written from the claim's words, to be compared with
`hasPermission`, which is written from the source.) -/
def hasPermissionClaimedResolution (profile : Option UserProfile) (permission : String) : Bool :=
  match profile with
  | none => false
  | some p =>
    if p.role = Role.admin then
      true
    else
      match p.permissions with
      | some ps =>
        match ps.lookup permission with
        | some b => b
        | none =>
          match rolePermissions.lookup p.role with
          | some caps => caps.contains permission
          | none => false
      | none =>
        match rolePermissions.lookup p.role with
        | some caps => caps.contains permission
        | none => false

/-- The resolution order amended to what the source implements: when the
permissions mapping exists, step 2 is final — a name missing from the
mapping yields `false` (`undefined === true`), and the static role table is
consulted only when the mapping is absent. -/
def hasPermissionAmendedResolution (profile : Option UserProfile) (permission : String) : Bool :=
  match profile with
  | none => false
  | some p =>
    if p.role = Role.admin then
      true
    else
      match p.permissions with
      | some ps =>
        match ps.lookup permission with
        | some b => b
        | none => false
      | none =>
        match rolePermissions.lookup p.role with
        | some caps => caps.contains permission
        | none => false

/-- A moderator profile whose permissions mapping exists but is empty. -/
def moderatorEmptyPerms : UserProfile :=
  { id := "mod-1", role := Role.moderator, is_active := true,
    blocked := false, permissions := some [] }

/-- C2 counterexample: for a moderator whose permissions mapping exists but
does not contain `"moderate_content"`, the claimed resolution order (fall
through to the static role table) answers `true`, but the source's
`hasPermission` answers `false`: `profile.permissions[permission] === true`
is returned unconditionally whenever the mapping is non-null, so the static
table is never reached. -/
theorem hasPermission_C2_counterexample :
    hasPermission (some moderatorEmptyPerms) "moderate_content" = false ∧
    hasPermissionClaimedResolution (some moderatorEmptyPerms) "moderate_content" = true ∧
    moderatorEmptyPerms.permissions = some [] ∧
    moderatorEmptyPerms.role = Role.moderator := by
  decide

/-- C2 amended: `hasPermission` resolves exactly by: (1) admin is granted
unconditionally; (2) if the permissions mapping exists, return the stored
boolean for the name, and `false` when the name is missing (the static
table is NOT consulted); (3) only when the mapping is absent, grant iff the
name is in the static role table; (4) no profile gives `false`. -/
theorem hasPermission_C2_amended (profile : Option UserProfile) (permission : String) :
    hasPermission profile permission = hasPermissionAmendedResolution profile permission := by
  unfold hasPermission hasPermissionAmendedResolution
  cases profile with
  | none => rfl
  | some p =>
    by_cases h : p.role = Role.admin
    · simp [h]
    · simp only [if_neg h]
      cases p.permissions with
      | none => rfl
      | some ps =>
        cases hps : ps.lookup permission with
        | none => simp [hps]
        | some b => cases b <;> simp [hps]

/-- The observable side effects of the session-manager operations:
the remote `supabase.auth.signOut()` call and the toast notices. -/
inductive Effect where
  | remoteSignOut
  | toastSuccess (msg : String)
  | toastError (msg : String)
deriving DecidableEq, Repr

/-- The body that the `onAuthStateChange` handler runs once its single
profile-fetch `await` has resolved (lines 170-184): on a blocked or
inactive profile (`userProfile.blocked || userProfile.is_active ===
false`) it awaits the remote sign-out, raises the notice and RETURNS —
before `setIsLoading(false)`, and without touching `profile`; on an active
profile it stores it; on a `null` fetch result (`if (userProfile)` false)
it stores nothing; the two non-return paths then clear `isLoading`. -/
def applyFetchResult (s : AuthState) (result : Option UserProfile) :
    AuthState × List Effect :=
  match result with
  | some p =>
    if p.blocked || p.is_active = false then
      (s, [Effect.remoteSignOut,
           Effect.toastError "Your account is not active or has been blocked"])
    else
      ({ s with profile := some p, isLoading := false }, [])
  | none => ({ s with isLoading := false }, [])

/-- The `onAuthStateChange` handler (lines 162-186) processing one auth
event atomically (the fetch resolves before any other event is handled):
with a session user it runs `setUser(session.user)`, awaits
`fetchUserProfile(session.user.id)` and applies `applyFetchResult`; with no
session user it clears `user` and `profile` and then clears `isLoading`. -/
def onAuthStateChange (s : AuthState) (session : Option Identity)
    (fetch : String → Option UserProfile) : AuthState × List Effect :=
  match session with
  | some u => applyFetchResult { s with user := some u } (fetch u.id)
  | none => ({ s with user := none, profile := none, isLoading := false }, [])

/-- `getInitialSession` (lines 126-157).  `sessionResult` is the outcome of
`supabase.auth.getSession()`: an error, no session, or a session user.  On
error: log and clear `isLoading`.  With a session user: `setUser`, fetch the
profile; a blocked/inactive profile triggers the remote sign-out, the
notice and `setIsLoading(false)` before returning (the `finally` repeats
the idempotent `setIsLoading(false)`); an active profile is stored; a
`null` result stores nothing; the `finally` clears `isLoading` in every
branch. -/
def getInitialSession (s : AuthState) (sessionResult : Except Unit (Option Identity))
    (fetch : String → Option UserProfile) : AuthState × List Effect :=
  match sessionResult with
  | Except.error _ => ({ s with isLoading := false }, [])
  | Except.ok none => ({ s with isLoading := false }, [])
  | Except.ok (some u) =>
    match fetch u.id with
    | some p =>
      if p.blocked || p.is_active = false then
        ({ s with user := some u, isLoading := false },
         [Effect.remoteSignOut,
          Effect.toastError "Your account is not active or has been blocked"])
      else
        ({ s with user := some u, profile := some p, isLoading := false }, [])
    | none => ({ s with user := some u, isLoading := false }, [])

/-- How the awaited `supabase.auth.signOut()` call can come back.  The auth
client returns failures — including transient network failures, which it
wraps into retryable auth errors — as an `error` field of a normally
resolved result; only a non-auth exception makes the promise reject and
reach the `catch` block. -/
inductive RemoteSignOutOutcome where
  | ok
  | errReturned
  | threw
deriving DecidableEq, Repr

/-- `signOut` (lines 91-101): the remote call is awaited and its result
value ignored; then `setUser(null)`, `setProfile(null)` and the success
toast.  Only a thrown exception diverts to the `catch` block, which logs
and toasts an error without touching the state. -/
def signOut (s : AuthState) (remote : RemoteSignOutOutcome) :
    AuthState × List Effect :=
  match remote with
  | RemoteSignOutOutcome.threw => (s, [Effect.toastError "Error signing out"])
  | _ => ({ s with user := none, profile := none },
          [Effect.toastSuccess "Signed out successfully"])

/-- `refreshProfile` (lines 84-89): with a current user, re-fetch the
profile and `setProfile` the result unconditionally — also when the fetch
failed or found nothing (`null`), and with no blocked/inactive check;
without a user, do nothing. -/
def refreshProfile (s : AuthState) (fetch : String → Option UserProfile) : AuthState :=
  match s.user with
  | some u => { s with profile := fetch u.id }
  | none => s

/-- A blocked profile used in counterexamples. -/
def blockedProfile : UserProfile :=
  { id := "user-1", role := Role.user, is_active := true,
    blocked := true, permissions := none }

/-- A signed-in state for `user-1` that has no profile loaded yet. -/
def stateUser1NoProfile : AuthState :=
  { user := some { id := "user-1" }, profile := none, isLoading := false }

/-- C1 counterexample: `refreshProfile` performs no blocked/inactive check.
From a state whose user is `user-1` with no profile loaded, a refresh whose
fetch returns a profile with `blocked = true` stores that profile into
`AuthState` and leaves the state with `isAuthenticated = true` — the
operation both stores the blocked profile and yields an authenticated
state, contradicting the claim. -/
theorem refreshProfile_C1_counterexample :
    blockedProfile.blocked = true ∧
    refreshProfile stateUser1NoProfile (fun _ => some blockedProfile) =
      { user := some { id := "user-1" }, profile := some blockedProfile,
        isLoading := false } ∧
    isAuthenticated
      (refreshProfile stateUser1NoProfile (fun _ => some blockedProfile)) = true := by
  decide

/-- C1 amended: `getInitialSession` and the `onAuthStateChange` handler
never store a blocked or inactive fetched profile — the stored `profile`
field is left unchanged and the remote sign-out is invoked — so when no
earlier profile remains in state they leave `isAuthenticated = false`;
`refreshProfile`, however, stores whatever profile the fetch returns with
no such check (see the counterexample). -/
theorem blocked_profile_never_stored_C1 (s : AuthState) (u : Identity)
    (fetch : String → Option UserProfile) (p : UserProfile)
    (hfetch : fetch u.id = some p)
    (hbad : p.blocked = true ∨ p.is_active = false) :
    (onAuthStateChange s (some u) fetch).1.profile = s.profile ∧
    Effect.remoteSignOut ∈ (onAuthStateChange s (some u) fetch).2 ∧
    (s.profile = none → isAuthenticated (onAuthStateChange s (some u) fetch).1 = false) ∧
    (getInitialSession s (Except.ok (some u)) fetch).1.profile = s.profile ∧
    Effect.remoteSignOut ∈ (getInitialSession s (Except.ok (some u)) fetch).2 ∧
    (s.profile = none →
      isAuthenticated (getInitialSession s (Except.ok (some u)) fetch).1 = false) := by
  have hcond : (p.blocked || decide (p.is_active = false)) = true := by
    rcases hbad with h | h <;> simp [h]
  simp only [onAuthStateChange, applyFetchResult, getInitialSession, hfetch, hcond,
    if_true]
  refine ⟨by simp, by simp, ?_, by simp, by simp, ?_⟩ <;>
    · intro hnone
      simp [isAuthenticated, hnone]

/-- Witness for the C1 amended theorem at the concrete blocked profile. -/
theorem blocked_profile_never_stored_C1_witness :
    (fun _ : String => some blockedProfile) "user-1" = some blockedProfile ∧
    (blockedProfile.blocked = true ∨ blockedProfile.is_active = false) ∧
    isAuthenticated
      (onAuthStateChange stateUser1NoProfile (some { id := "user-1" })
        (fun _ => some blockedProfile)).1 = false := by
  refine ⟨rfl, Or.inl rfl, ?_⟩
  exact (blocked_profile_never_stored_C1 stateUser1NoProfile { id := "user-1" }
    (fun _ => some blockedProfile) blockedProfile rfl (Or.inl rfl)).2.2.1 rfl

/-- C4: when the remote sign-out call fails with a transient error — which
the auth client delivers as an error value of a normally resolved call —
`signOut` still clears both the local identity and the local profile, so
the local state does not remain authenticated merely because the remote
call failed. -/
theorem signOut_clears_on_remote_error_C4 (s : AuthState) :
    (signOut s RemoteSignOutOutcome.errReturned).1.user = none ∧
    (signOut s RemoteSignOutOutcome.errReturned).1.profile = none ∧
    isAuthenticated (signOut s RemoteSignOutOutcome.errReturned).1 = false := by
  refine ⟨rfl, rfl, ?_⟩
  simp [signOut, isAuthenticated]

/-- C9: `signOut` is idempotent — invoked on a state whose identity and
profile are already `null`, it leaves the state unchanged (for a remote
call that resolves, with or without an error value), and it never
propagates an error: the `catch` block converts even a thrown exception
into a toast, leaving the state as it was. -/
theorem signOut_idempotent_C9 (s : AuthState)
    (huser : s.user = none) (hprofile : s.profile = none) :
    (signOut s RemoteSignOutOutcome.ok).1 = s ∧
    (signOut s RemoteSignOutOutcome.errReturned).1 = s ∧
    (signOut s RemoteSignOutOutcome.threw).1 = s := by
  refine ⟨?_, ?_, rfl⟩ <;>
    · simp only [signOut]
      cases s
      simp_all

/-- Witness for C9 at the signed-out state. -/
theorem signOut_idempotent_C9_witness :
    (signOut { user := none, profile := none, isLoading := false }
      RemoteSignOutOutcome.ok).1 =
      { user := none, profile := none, isLoading := false } :=
  (signOut_idempotent_C9 { user := none, profile := none, isLoading := false }
    rfl rfl).1

/-- C10: with an identity present, a `refreshProfile` whose re-fetch fails
or finds no record (the fetch returns `none`) overwrites the stored profile
with `none`: the identity stays in place and `isAuthenticated` becomes
false. -/
theorem refreshProfile_overwrites_with_none_C10 (s : AuthState) (u : Identity)
    (fetch : String → Option UserProfile)
    (huser : s.user = some u) (hfetch : fetch u.id = none) :
    refreshProfile s fetch = { s with profile := none } ∧
    (refreshProfile s fetch).user = some u ∧
    isAuthenticated (refreshProfile s fetch) = false := by
  have h1 : refreshProfile s fetch = { s with profile := none } := by
    simp only [refreshProfile, huser, hfetch]
  refine ⟨h1, ?_, ?_⟩
  · rw [h1]; exact huser
  · rw [h1]; simp [isAuthenticated]

/-- Witness for C10: a refresh for `user-1` whose fetch finds nothing. -/
theorem refreshProfile_overwrites_with_none_C10_witness :
    isAuthenticated (refreshProfile stateUser1NoProfile (fun _ => none)) = false :=
  (refreshProfile_overwrites_with_none_C10 stateUser1NoProfile { id := "user-1" }
    (fun _ => none) rfl rfl).2.2

/-- A client world: the auth state together with the profile fetches that
have been issued but have not resolved yet.  Each pending entry records the
session user the handler captured when it issued the fetch, and the value
the fetch will eventually deliver.  (The source keeps no such tag — the
resolved handler continuation stores its result without comparing the
identity it was issued for against the current one; accordingly
`World.step` never reads the recorded identity.) -/
structure World where
  auth : AuthState
  pending : List (Identity × Option UserProfile)
deriving DecidableEq, Repr

/-- One scheduler action: an auth event is delivered to the
`onAuthStateChange` handler, or the `i`-th in-flight profile fetch
resolves.  A handler invocation is atomic up to its single `await`: the
part before the `await` (`setUser` and issuing the fetch) runs when the
event is delivered, and the continuation after the `await` (the blocked
check / `setProfile` / `setIsLoading(false)`) runs when that fetch
resolves.  The no-session branch has no `await` and runs whole. -/
inductive Action where
  | authEvent (session : Option Identity) (fetchResult : Option UserProfile)
  | fetchResolves (i : Nat)
deriving DecidableEq, Repr

/-- The interleaving semantics of the `onAuthStateChange` handler. -/
def World.step (w : World) (a : Action) : World :=
  match a with
  | Action.authEvent (some u) result =>
    { auth := { w.auth with user := some u },
      pending := w.pending ++ [(u, result)] }
  | Action.authEvent none _ =>
    { auth := { w.auth with user := none, profile := none, isLoading := false },
      pending := w.pending }
  | Action.fetchResolves i =>
    match w.pending.get? i with
    | some pf =>
      { auth := (applyFetchResult w.auth pf.2).1,
        pending := w.pending.eraseIdx i }
    | none => w

/-- Identity A of the overlapping-events scenario. -/
def identityA : Identity := { id := "user-a" }

/-- Identity B of the overlapping-events scenario. -/
def identityB : Identity := { id := "user-b" }

/-- The active profile of identity A. -/
def profileA : UserProfile :=
  { id := "user-a", role := Role.user, is_active := true,
    blocked := false, permissions := none }

/-- The active profile of identity B. -/
def profileB : UserProfile :=
  { id := "user-b", role := Role.user, is_active := true,
    blocked := false, permissions := none }

/-- The empty signed-out world. -/
def worldInit : World :=
  { auth := { user := none, profile := none, isLoading := false }, pending := [] }

/-- The scenario of claim C3: login of A whose profile fetch is slow, then
a logout, then a login of B whose fetch is fast — B's fetch resolves first,
A's stale fetch resolves last. -/
def overlappingTrace : List Action :=
  [ Action.authEvent (some identityA) (some profileA),
    Action.authEvent none none,
    Action.authEvent (some identityB) (some profileB),
    Action.fetchResolves 1,
    Action.fetchResolves 0 ]

/-- C3 counterexample: the handler discards nothing — when the in-flight
fetch issued for the superseded identity A resolves after B's login has
completed, its continuation stores A's profile, so the final state pairs
B's identity with A's profile instead of reflecting the last event
exclusively. -/
theorem stale_fetch_overwrites_C3_counterexample :
    (overlappingTrace.foldl World.step worldInit).auth.user = some identityB ∧
    (overlappingTrace.foldl World.step worldInit).auth.profile = some profileA ∧
    (overlappingTrace.foldl World.step worldInit).auth.profile ≠ some profileB ∧
    profileA.id ≠ identityB.id := by
  decide

/-- C3 amended: the source has no stale-fetch discarding (no correlation
token), so the final state reflects the last event only when events do not
overlap: from a world with no in-flight fetch, a login whose fetch resolves
before anything else yields exactly that identity and profile. -/
theorem last_event_wins_sequential_C3 (w : World) (u : Identity) (p : UserProfile)
    (hpend : w.pending = []) (hb : p.blocked = false) (ha : p.is_active = true) :
    (World.step (World.step w (Action.authEvent (some u) (some p)))
        (Action.fetchResolves 0)).auth.user = some u ∧
    (World.step (World.step w (Action.authEvent (some u) (some p)))
        (Action.fetchResolves 0)).auth.profile = some p ∧
    (World.step (World.step w (Action.authEvent (some u) (some p)))
        (Action.fetchResolves 0)).pending = [] := by
  simp [World.step, hpend, applyFetchResult, hb, ha]

/-- Witness for the C3 amended theorem: a lone login of B. -/
theorem last_event_wins_sequential_C3_witness :
    (World.step (World.step worldInit (Action.authEvent (some identityB) (some profileB)))
        (Action.fetchResolves 0)).auth.profile = some profileB :=
  (last_event_wins_sequential_C3 worldInit identityB profileB rfl rfl rfl).2.1

/-- The state reached by processing a login of A whose fetch finds A's
profile: `user = A`, `profile = profileA`. -/
def stateAfterLoginA : AuthState :=
  (onAuthStateChange { user := none, profile := none, isLoading := false }
    (some identityA)
    (fun uid => if uid = "user-a" then some profileA else none)).1

/-- The state reached from `stateAfterLoginA` by a login event of B whose
profile fetch fails (the source's `fetchUserProfile` returns `null`). -/
def stateAfterLoginBFetchFails : AuthState :=
  (onAuthStateChange stateAfterLoginA (some identityB) (fun _ => none)).1

/-- C5 counterexample: the handler runs `setUser(session.user)` and, when
the fetch returns `null`, skips `setProfile` (`if (userProfile)` is false),
leaving the previous profile in place — the reachable state after A logs in
and then B logs in with a failing profile fetch pairs B's identity with A's
stale profile, with `isAuthenticated = true`. -/
theorem stale_profile_pair_C5_counterexample :
    stateAfterLoginBFetchFails.user = some identityB ∧
    stateAfterLoginBFetchFails.profile = some profileA ∧
    isAuthenticated stateAfterLoginBFetchFails = true ∧
    profileA.id ≠ identityB.id := by
  decide

/-- The identity/profile consistency relation of claim C5: whenever both
are present, the stored profile is the stored identity's own. -/
def profileMatchesUser (s : AuthState) : Prop :=
  ∀ u p, s.user = some u → s.profile = some p → p.id = u.id

/-- C5 amended: one step of the handler preserves identity/profile
consistency only under the extra assumptions that the fetch succeeds for
the event's user and that every profile it returns is the requested user's
own, active and unblocked; when the fetch can fail, the previous profile
survives next to the new identity (see the counterexample). -/
theorem consistency_preserved_C5_amended (s : AuthState) (session : Option Identity)
    (fetch : String → Option UserProfile)
    (hid : ∀ uid p, fetch uid = some p → p.id = uid ∧ p.blocked = false ∧ p.is_active = true)
    (hok : ∀ u, session = some u → (fetch u.id).isSome = true)
    (_hs : profileMatchesUser s) :
    profileMatchesUser (onAuthStateChange s session fetch).1 := by
  cases session with
  | none =>
    intro u p hu hp
    simp [onAuthStateChange] at hu
  | some u =>
    cases hf : fetch u.id with
    | none =>
      have := hok u rfl
      rw [hf] at this
      simp at this
    | some p =>
      obtain ⟨hpid, hb, ha⟩ := hid u.id p hf
      intro u' p' hu hp
      simp only [onAuthStateChange, applyFetchResult, hf, hb, ha] at hu hp
      simp only [Bool.false_or, decide_eq_true_eq] at hu hp
      rw [if_neg (by simp)] at hu hp
      simp only [Option.some.injEq] at hu hp
      subst hu
      subst hp
      exact hpid

/-- A fetch that returns, for every requested id, a fresh active profile
with that id. -/
def freshActiveFetch : String → Option UserProfile :=
  fun uid => some { id := uid, role := Role.user, is_active := true,
                    blocked := false, permissions := none }

/-- Witness for the C5 amended theorem: a login of A against a fetch that
always returns the requested user's own active profile. -/
theorem consistency_preserved_C5_amended_witness :
    profileMatchesUser
      (onAuthStateChange { user := none, profile := none, isLoading := false }
        (some identityA) freshActiveFetch).1 := by
  apply consistency_preserved_C5_amended
  · intro uid p h
    injection h with h2
    subst h2
    exact ⟨rfl, rfl, rfl⟩
  · intro u h
    rfl
  · intro u p hu hp
    exact Option.noConfusion hu

/-- C6 counterexample: in the `onAuthStateChange` handler's forced
sign-out branch the early `return` comes BEFORE `setIsLoading(false)`, so
for an event that delivers a blocked profile while `loading` is still true,
`loading` stays true at the end of the event — clearing it is skipped, not
performed exactly once. -/
theorem loading_skipped_C6_counterexample :
    blockedProfile.blocked = true ∧
    (onAuthStateChange { user := none, profile := none, isLoading := true }
      (some { id := "user-1" }) (fun _ => some blockedProfile)).1.isLoading = true := by
  decide

/-- C6 amended: the handler clears `loading` at the end of every event that
does not take the forced sign-out branch (profile stored, fetch failed, or
signed out); in the forced sign-out branch it returns without clearing
`loading` (it is cleared only by the subsequent sign-out event).
`getInitialSession`, by contrast, clears `loading` in every branch,
including its forced sign-out branch. -/
theorem loading_cleared_C6_amended (s : AuthState) (session : Option Identity)
    (fetch : String → Option UserProfile)
    (sessionResult : Except Unit (Option Identity))
    (hnotforced : ∀ u p, session = some u → fetch u.id = some p →
      p.blocked = false ∧ p.is_active = true) :
    (onAuthStateChange s session fetch).1.isLoading = false ∧
    (getInitialSession s sessionResult fetch).1.isLoading = false := by
  constructor
  · cases session with
    | none => rfl
    | some u =>
      cases hf : fetch u.id with
      | none => simp [onAuthStateChange, applyFetchResult, hf]
      | some p =>
        obtain ⟨hb, ha⟩ := hnotforced u p rfl hf
        simp [onAuthStateChange, applyFetchResult, hf, hb, ha]
  · cases sessionResult with
    | error e => rfl
    | ok session2 =>
      cases session2 with
      | none => rfl
      | some u =>
        cases hf : fetch u.id with
        | none => simp [getInitialSession, hf]
        | some p =>
          simp only [getInitialSession, hf]
          split <;> rfl

/-- Witness for the C6 amended theorem: a sign-out event, and an initial
session probe that finds no session. -/
theorem loading_cleared_C6_amended_witness :
    (onAuthStateChange { user := none, profile := none, isLoading := true }
      none (fun _ => none)).1.isLoading = false ∧
    (getInitialSession { user := none, profile := none, isLoading := true }
      (Except.ok none) (fun _ => none)).1.isLoading = false :=
  loading_cleared_C6_amended { user := none, profile := none, isLoading := true }
    none (fun _ => none) (Except.ok none)
    (fun _ _ h _ => Option.noConfusion h)

/-- The originally requested location, carried into the login redirect as
`state={{ from: location }}`. -/
structure Location where
  path : String
deriving DecidableEq, Repr

/-- A view a guard can be asked to render: the protected children, or a
caller-supplied fallback node, modelled by its message text (the fallbacks
the derived guards pass are message views). -/
inductive View where
  | protectedContent
  | message (msg : String)
deriving DecidableEq, Repr

/-- What a guard renders: the loading indicator, the `<Navigate
to="/login" state={{ from: location }} />` redirect, one of the views it
was handed, or the generic access-denied view, which names the current
role (`profile?.role || 'Unknown'`) and the required role. -/
inductive RouteResult where
  | loadingView
  | redirectToLogin (onLoginFrom : Location)
  | render (v : View)
  | accessDenied (currentRole : Option Role) (requiredRole : Role)
deriving DecidableEq, Repr

/-- `ProtectedRoute` (lines 222-289), branch for branch: loading view while
`isLoading`; redirect when `requireAuth && !isAuthenticated`; then `if
(requiredRole && profile?.role !== requiredRole)` — inside it the admin
bypass, then the caller-supplied fallback, then the generic denial view —
and otherwise the children. -/
def ProtectedRoute (s : AuthState) (location : Location) (children : View)
    (requiredRole : Option Role) (requireAuth : Bool) (fallback : Option View) :
    RouteResult :=
  if s.isLoading then
    RouteResult.loadingView
  else if requireAuth && !(isAuthenticated s) then
    RouteResult.redirectToLogin location
  else
    match requiredRole with
    | some req =>
      if roleOf s ≠ some req then
        if roleOf s = some Role.admin then
          RouteResult.render children
        else
          match fallback with
          | some f => RouteResult.render f
          | none => RouteResult.accessDenied (roleOf s) req
      else
        RouteResult.render children
    | none => RouteResult.render children

/-- The guard decision exactly as claim C7 orders it: loading first; then
the unauthenticated redirect preserving the requested location; then, for a
set required role, pass on exact match or on the admin bypass, and
otherwise deny with the supplied fallback or the generic view naming both
roles; else render the content.  (Written from the claim's words, to be
compared with `ProtectedRoute`, which is written from the source.) -/
def routeGuardClaimedDecision (s : AuthState) (location : Location) (children : View)
    (requiredRole : Option Role) (requireAuth : Bool) (fallback : Option View) :
    RouteResult :=
  if s.isLoading then
    RouteResult.loadingView
  else if requireAuth = true ∧ isAuthenticated s = false then
    RouteResult.redirectToLogin location
  else
    match requiredRole with
    | some req =>
      if roleOf s = some req ∨ roleOf s = some Role.admin then
        RouteResult.render children
      else
        match fallback with
        | some f => RouteResult.render f
        | none => RouteResult.accessDenied (roleOf s) req
    | none => RouteResult.render children

/-- C7: the route guard decides exactly in the claimed order — loading
view while loading; login redirect preserving the requested location when
authentication is required but absent; for a set required role an exact
match or the role admin passes and anything else is denied with the
supplied fallback, or with the generic denial view naming the current and
the required role; otherwise the protected content. -/
theorem routeGuard_decision_C7 (s : AuthState) (location : Location) (children : View)
    (requiredRole : Option Role) (requireAuth : Bool) (fallback : Option View) :
    ProtectedRoute s location children requiredRole requireAuth fallback =
      routeGuardClaimedDecision s location children requiredRole requireAuth fallback := by
  unfold ProtectedRoute routeGuardClaimedDecision
  cases hload : s.isLoading with
  | true => simp [hload]
  | false =>
    cases hauth : isAuthenticated s with
    | false =>
      cases hreq : requireAuth with
      | true => simp [hload, hauth, hreq]
      | false =>
        cases requiredRole with
        | none => simp [hload, hauth, hreq]
        | some req =>
          by_cases hrole : roleOf s = some req
          · simp [hload, hauth, hreq, hrole]
          · by_cases hadmin : roleOf s = some Role.admin
            · simp [hload, hauth, hreq, hrole, hadmin]
            · cases fallback <;> simp [hload, hauth, hreq, hrole, hadmin]
    | true =>
      cases requiredRole with
      | none => simp [hload, hauth]
      | some req =>
        by_cases hrole : roleOf s = some req
        · simp [hload, hauth, hrole]
        · by_cases hadmin : roleOf s = some Role.admin
          · simp [hload, hauth, hrole, hadmin]
          · cases fallback <;> simp [hload, hauth, hrole, hadmin]

/-- The fallback view `ModeratorRoute` supplies to `ProtectedRoute`. -/
def moderatorFallback : View :=
  View.message "This page requires moderator or admin privileges."

/-- The fallback view `EditorRoute` supplies to `ProtectedRoute`. -/
def editorFallback : View :=
  View.message "This page requires editor, moderator, or admin privileges."

/-- `ModeratorRoute` (lines 315-340): `hasAccess = profile?.role ===
'admin' || profile?.role === 'moderator'`; with access, render the
children directly; otherwise delegate to `ProtectedRoute` with
`requiredRole="moderator"` and the moderator-specific fallback. -/
def ModeratorRoute (s : AuthState) (location : Location) : RouteResult :=
  if roleOf s = some Role.admin || roleOf s = some Role.moderator then
    RouteResult.render View.protectedContent
  else
    ProtectedRoute s location View.protectedContent (some Role.moderator) true
      (some moderatorFallback)

/-- `EditorRoute` (lines 343-368): `hasAccess =
['admin','moderator','editor'].includes(profile?.role || '')`; with
access, render the children directly; otherwise delegate to
`ProtectedRoute` with `requiredRole="editor"` and the editor-specific
fallback.  (`profile?.role || ''` with no profile is the empty string,
which is in no allow-list.) -/
def EditorRoute (s : AuthState) (location : Location) : RouteResult :=
  if (match roleOf s with
      | some r => [Role.admin, Role.moderator, Role.editor].contains r
      | none => false) then
    RouteResult.render View.protectedContent
  else
    ProtectedRoute s location View.protectedContent (some Role.editor) true
      (some editorFallback)

/-- C8: the moderator-or-above guard grants access exactly to the roles in
{admin, moderator} — in particular admin is granted, not denied — and the
editor-or-above guard exactly to {admin, moderator, editor}; any other
authenticated profile (once loading is over) is denied with the respective
moderator-specific or editor-specific fallback message. -/
theorem allowlist_guards_C8 (s : AuthState) (location : Location)
    (hload : s.isLoading = false) (hauth : isAuthenticated s = true) :
    (ModeratorRoute s location = RouteResult.render View.protectedContent ↔
      roleOf s = some Role.admin ∨ roleOf s = some Role.moderator) ∧
    (¬(roleOf s = some Role.admin ∨ roleOf s = some Role.moderator) →
      ModeratorRoute s location = RouteResult.render moderatorFallback) ∧
    (EditorRoute s location = RouteResult.render View.protectedContent ↔
      roleOf s = some Role.admin ∨ roleOf s = some Role.moderator ∨
        roleOf s = some Role.editor) ∧
    (¬(roleOf s = some Role.admin ∨ roleOf s = some Role.moderator ∨
        roleOf s = some Role.editor) →
      EditorRoute s location = RouteResult.render editorFallback) := by
  have hmodDenied : ¬(roleOf s = some Role.admin ∨ roleOf s = some Role.moderator) →
      ModeratorRoute s location = RouteResult.render moderatorFallback := by
    intro hnot
    push_neg at hnot
    obtain ⟨h1, h2⟩ := hnot
    cases hr : roleOf s with
    | none => simp [ModeratorRoute, ProtectedRoute, hload, hauth, hr]
    | some r =>
      cases r with
      | admin => exact absurd hr h1
      | moderator => exact absurd hr h2
      | editor => simp [ModeratorRoute, ProtectedRoute, hload, hauth, hr]
      | user => simp [ModeratorRoute, ProtectedRoute, hload, hauth, hr]
  have hedDenied : ¬(roleOf s = some Role.admin ∨ roleOf s = some Role.moderator ∨
        roleOf s = some Role.editor) →
      EditorRoute s location = RouteResult.render editorFallback := by
    intro hnot
    push_neg at hnot
    obtain ⟨h1, h2, h3⟩ := hnot
    cases hr : roleOf s with
    | none => simp [EditorRoute, ProtectedRoute, hload, hauth, hr]
    | some r =>
      cases r with
      | admin => exact absurd hr h1
      | moderator => exact absurd hr h2
      | editor => exact absurd hr h3
      | user => simp [EditorRoute, ProtectedRoute, hload, hauth, hr]
  refine ⟨?_, hmodDenied, ?_, hedDenied⟩
  · constructor
    · intro hres
      by_contra hnot
      rw [hmodDenied hnot] at hres
      exact absurd hres (by decide)
    · intro hin
      rcases hin with h | h <;> simp [ModeratorRoute, h]
  · constructor
    · intro hres
      by_contra hnot
      rw [hedDenied hnot] at hres
      exact absurd hres (by decide)
    · intro hin
      rcases hin with h | h | h <;> simp [EditorRoute, h]

/-- A state holding an authenticated admin. -/
def stateAdmin : AuthState :=
  { user := some { id := "admin-1" },
    profile := some { id := "admin-1", role := Role.admin, is_active := true,
                      blocked := false, permissions := none },
    isLoading := false }

/-- Witness for C8: an authenticated admin passes the moderator-or-above
guard. -/
theorem allowlist_guards_C8_witness :
    stateAdmin.isLoading = false ∧ isAuthenticated stateAdmin = true ∧
    ModeratorRoute stateAdmin { path := "/moderation" } =
      RouteResult.render View.protectedContent := by
  refine ⟨rfl, rfl, ?_⟩
  exact (allowlist_guards_C8 stateAdmin { path := "/moderation" } rfl rfl).1.mpr
    (Or.inl rfl)

end Chronicle
